import Mathlib

/-!
Shallow embedding of the particle-lifecycle animation engine of
`src/js/logoScene.js` (the hero-logo scene of the personal website).

JavaScript floating-point numbers are modelled as real numbers; the
randomized draws of `Math.random()` are modelled as explicit input
oracles (one real number in `[0,1)` per draw).  Phase names follow the
source (`BUILD_SPIN` = ASSEMBLE, `SHAKE` = IDLE_OSCILLATE, `EXIT` =
DISPERSE, `WAIT` = PAUSE).
-/

namespace LogoScene

noncomputable section

open Real

/-! ### Configuration constants (the `SETTINGS` object, lines 9-49) -/

def logoDiameter : ℝ := 6.0
def buildStartJitter : ℝ := 1.2
def buildMinDur : ℝ := 2.0
def buildMaxDur : ℝ := 4.0
def planeFadeAt : ℝ := 0.92
def handoffStartProg : ℝ := 0.94
def handoffEndProg : ℝ := 1.00
def shakeSecs : ℝ := 8.0
def maxYawDeg : ℝ := 25
def shakeSpeed : ℝ := 0.5
def exitStartJitter : ℝ := 0.5
def exitMinDur : ℝ := 1.0
def exitMaxDur : ℝ := 1.8
def pushDistance : ℝ := 6.0
def rebuildDelay : ℝ := 1.0

/-- THREE.MathUtils.degToRad. -/
def degToRad (d : ℝ) : ℝ := d * (π / 180)

/-- MAX_YAW = degToRad(SETTINGS.SHAKE.maxYawDeg), line 87. -/
def MAX_YAW : ℝ := degToRad maxYawDeg

/-! ### Helper functions (lines 72-78) -/

/-- easeOutExpo = t => (t >= 1 ? 1 : 1 - Math.pow(2, -10 * t)). -/
def easeOutExpo (t : ℝ) : ℝ := if 1 ≤ t then 1 else 1 - (2 : ℝ) ^ (-10 * t)

/-- easeInCubic = t => t * t * t. -/
def easeInCubic (t : ℝ) : ℝ := t * t * t

/-- clamp01 = v => Math.max(0, Math.min(1, v)). -/
def clamp01 (v : ℝ) : ℝ := max 0 (min 1 v)

/-- smoothstep(a, b, x) with t = clamp01((x - a)/(b - a)); returns t*t*(3 - 2t). -/
def smoothstep (a b x : ℝ) : ℝ :=
  let t := clamp01 ((x - a) / (b - a))
  t * t * (3 - 2 * t)

/-- THREE.MathUtils.lerp(x, y, t) = (1 - t) * x + t * y. -/
def lerp (a b t : ℝ) : ℝ := (1 - t) * a + t * b

/-- randBetween(a, b) = a + Math.random()*(b - a), with the draw `u` explicit. -/
def randBetween (a b u : ℝ) : ℝ := a + u * (b - a)

/-! ### Data model -/

/-- One 3D point of a particle buffer. -/
@[ext] structure Vec3 where
  x : ℝ
  y : ℝ
  z : ℝ

/-- Componentwise lerp, as the three per-coordinate lerp calls in `tick`. -/
def lerpV (a b : Vec3) (t : ℝ) : Vec3 := ⟨lerp a.x b.x t, lerp a.y b.y t, lerp a.z b.z t⟩

/-- The PHASES enum, line 82. -/
inductive Phase where
  | BUILD_SPIN
  | SHAKE
  | EXIT
  | WAIT
deriving DecidableEq

/-- The mutable module-level state read and written by `tick` and
`prepareBuildCycle`, for a fixed particle count `n`. -/
structure SceneState (n : ℕ) where
  phase : Phase
  tPhaseStart : ℝ
  shakePhase : ℝ
  planeOpacity : ℝ
  pointsOpacity : ℝ
  pointsVisible : Bool
  spinnerYaw : ℝ
  spinnerPitch : ℝ
  positions : Fin n → Vec3
  startPositions : Fin n → Vec3
  endPositions : Fin n → Vec3
  exitPositions : Fin n → Vec3
  t0 : Fin n → ℝ
  td : Fin n → ℝ
  startTimesExit : Fin n → ℝ
  durationsExit : Fin n → ℝ

/-- The image bounds and fit scale fixed at init (lines 103-105). -/
structure Env where
  boundsW : ℝ
  boundsH : ℝ
  scale : ℝ

/-- One cycle's worth of `Math.random()` draws, one oracle per call site of
`prepareBuildCycle`; each draw is a real in `[0,1)`. -/
structure CycleRand (n : ℕ) where
  edgeU : Fin n → ℝ
  posU : Fin n → ℝ
  zU : Fin n → ℝ
  magU : Fin n → ℝ
  exitZU : Fin n → ℝ
  t0U : Fin n → ℝ
  tdU : Fin n → ℝ
  exitT0U : Fin n → ℝ
  exitTdU : Fin n → ℝ

/-! ### Cycle generator (`prepareBuildCycle`, lines 152-216) -/

/-- Spawn position on the padding-inflated rectangle: edge = Math.floor(u*4),
then one coordinate pinned to the edge and the other drawn by randBetween
(lines 161-166). -/
def spawnOf (halfW halfH edgeU posU zU : ℝ) : Vec3 :=
  let edge : ℤ := ⌊edgeU * 4⌋
  let sz := (zU * 2 - 1) * 0.8
  if edge = 0 then ⟨-halfW, randBetween (-halfH) halfH posU, sz⟩
  else if edge = 1 then ⟨halfW, randBetween (-halfH) halfH posU, sz⟩
  else if edge = 2 then ⟨randBetween (-halfW) halfW posU, halfH, sz⟩
  else ⟨randBetween (-halfW) halfW posU, -halfH, sz⟩

/-- Exit target from the particle's own final position (lines 173-180):
len = Math.hypot(vx, vy) || 1 (JS `||`: a zero length is replaced by 1). -/
def exitTargetOf (endP : Vec3) (magU exitZU : ℝ) : Vec3 :=
  let vx := endP.x
  let vy := endP.y
  let h := Real.sqrt (vx ^ 2 + vy ^ 2)
  let len := if h = 0 then 1 else h
  let dx := vx / len
  let dy := vy / len
  let mag := pushDistance + magU * (logoDiameter * 0.8)
  ⟨vx + dx * mag, vy + dy * mag, (exitZU * 2 - 1) * 1.2⟩

/-- Padding of the spawn rectangle: PAD = LOGO_DIAMETER * 0.75 (line 156). -/
def spawnPad : ℝ := logoDiameter * 0.75

/-- Half width of the inflated spawn rectangle (line 157). -/
def halfW (env : Env) : ℝ := env.boundsW * env.scale / 2 + spawnPad

/-- Half height of the inflated spawn rectangle (line 158). -/
def halfH (env : Env) : ℝ := env.boundsH * env.scale / 2 + spawnPad

/-- prepareBuildCycle (lines 152-216): fresh spawn positions, exit targets and
timing arrays, reset orientation and opacities, re-enter BUILD_SPIN. -/
def prepareBuildCycle {n : ℕ} (env : Env) (endPositions : Fin n → Vec3)
    (r : CycleRand n) (now : ℝ) : SceneState n :=
  let starts : Fin n → Vec3 :=
    fun i => spawnOf (halfW env) (halfH env) (r.edgeU i) (r.posU i) (r.zU i)
  { phase := Phase.BUILD_SPIN
    tPhaseStart := now
    shakePhase := 0
    planeOpacity := 0
    pointsOpacity := 1
    pointsVisible := true
    spinnerYaw := -π
    spinnerPitch := 0
    positions := starts
    startPositions := starts
    endPositions := endPositions
    exitPositions := fun i => exitTargetOf (endPositions i) (r.magU i) (r.exitZU i)
    t0 := fun i => r.t0U i * buildStartJitter
    td := fun i => buildMinDur + r.tdU i * (buildMaxDur - buildMinDur)
    startTimesExit := fun i => r.exitT0U i * exitStartJitter
    durationsExit := fun i => exitMinDur + r.exitTdU i * (exitMaxDur - exitMinDur) }

/-! ### Per-frame quantities of the BUILD_SPIN branch (lines 227-271) -/

/-- Per-particle raw build progress clamp01((t - start)/dur) (line 232). -/
def buildProgress (start dur t : ℝ) : ℝ := clamp01 ((t - start) / dur)

/-- Per-particle eased build progress (line 233). -/
def buildEase {n : ℕ} (st : SceneState n) (now : ℝ) (i : Fin n) : ℝ :=
  easeOutExpo (buildProgress (st.t0 i) (st.td i) (now - st.tPhaseStart))

/-- avgBuildProgress = (sum of eased progresses) / N (line 242). -/
def avgBuild {n : ℕ} (st : SceneState n) (now : ℝ) : ℝ :=
  (∑ i, buildEase st now i) / n

/-- The hand-off blend factor s (line 251). -/
def blendS {n : ℕ} (st : SceneState n) (now : ℝ) : ℝ :=
  smoothstep handoffStartProg handoffEndProg (avgBuild st now)

/-- Blended yaw from the current aggregate progress and the (already advanced)
oscillation phase accumulator (lines 253-258):
(1 - s) * lerp(-pi, 0, avg) + MAX_YAW * sin(phi) * s. -/
def yawOf (avg φ : ℝ) : ℝ :=
  let s := smoothstep handoffStartProg handoffEndProg avg
  (1 - s) * lerp (-π) 0 avg + MAX_YAW * Real.sin φ * s

/-- The BUILD_SPIN branch of `tick` (lines 227-271). -/
def buildStep {n : ℕ} (st : SceneState n) (now dt : ℝ) : SceneState n :=
  let avg := avgBuild st now
  let planeOp := if planeFadeAt < avg then min 1 (st.planeOpacity + 0.03) else st.planeOpacity
  let s := smoothstep handoffStartProg handoffEndProg avg
  let φ := st.shakePhase + shakeSpeed * dt * (if 0 < s then 1 else 0)
  let handoffDone : Prop := 0.999 ≤ s ∧ 0.999 ≤ planeOp
  { st with
    positions := fun i => lerpV (st.startPositions i) (st.endPositions i) (buildEase st now i)
    planeOpacity := planeOp
    shakePhase := φ
    spinnerYaw := yawOf avg φ
    spinnerPitch := Real.sin (now * 0.6) * 0.05
    pointsOpacity := (1 - s) ^ (1.5 : ℝ)
    pointsVisible := if 0.999 ≤ s then false else st.pointsVisible
    phase := if handoffDone then Phase.SHAKE else st.phase
    tPhaseStart := if handoffDone then now else st.tPhaseStart }

/-! ### The SHAKE, EXIT and WAIT branches -/

/-- The SHAKE branch of `tick` (lines 273-283). -/
def shakeStep {n : ℕ} (st : SceneState n) (now dt : ℝ) : SceneState n :=
  let φ := st.shakePhase + shakeSpeed * dt
  let timeUp : Prop := shakeSecs ≤ now - st.tPhaseStart
  { st with
    shakePhase := φ
    spinnerYaw := MAX_YAW * Real.sin φ
    spinnerPitch := Real.sin (now * 0.6) * 0.05
    pointsVisible := if timeUp then true else st.pointsVisible
    pointsOpacity := if timeUp then 1 else st.pointsOpacity
    phase := if timeUp then Phase.EXIT else st.phase
    tPhaseStart := if timeUp then now else st.tPhaseStart }

/-- Per-particle exit progress clamp01((t - start)/dur) (line 291). -/
def exitProg {n : ℕ} (st : SceneState n) (now : ℝ) (i : Fin n) : ℝ :=
  clamp01 ((now - st.tPhaseStart - st.startTimesExit i) / st.durationsExit i)

/-- Count of particles with exit progress at least 1 (`done`, line 299). -/
def exitDone {n : ℕ} (st : SceneState n) (now : ℝ) : ℕ :=
  (Finset.univ.filter fun i => 1 ≤ exitProg st now i).card

/-- The EXIT branch of `tick` (lines 285-304). -/
def exitStep {n : ℕ} (st : SceneState n) (now : ℝ) : SceneState n :=
  let allDone : Prop := n ≤ exitDone st now
  { st with
    positions := fun i =>
      lerpV (st.endPositions i) (st.exitPositions i) (easeInCubic (exitProg st now i))
    planeOpacity := max 0 (st.planeOpacity - 0.03)
    phase := if allDone then Phase.WAIT else st.phase
    tPhaseStart := if allDone then now else st.tPhaseStart }

/-- The WAIT branch of `tick` (lines 306-311): after the rebuild delay the
cycle generator runs once and the machine re-enters BUILD_SPIN. -/
def waitStep {n : ℕ} (env : Env) (st : SceneState n) (r : CycleRand n) (now : ℝ) :
    SceneState n :=
  if rebuildDelay ≤ now - st.tPhaseStart then prepareBuildCycle env st.endPositions r now
  else st

/-- One frame of the animation loop (`tick`, lines 218-314). `now` is the
wall-clock in seconds, `dt` the delta since the previous frame, `r` the
random draws consumed if this frame restarts a cycle. -/
def tick {n : ℕ} (env : Env) (st : SceneState n) (now dt : ℝ) (r : CycleRand n) :
    SceneState n :=
  match st.phase with
  | Phase.BUILD_SPIN => buildStep st now dt
  | Phase.SHAKE => shakeStep st now dt
  | Phase.EXIT => exitStep st now
  | Phase.WAIT => waitStep env st r now

/-! ### Concrete fixture used to instantiate hypotheses of the theorems -/

/-- One-particle image bounds fixture. -/
def demoEnv : Env := ⟨1, 1, 1⟩

/-- Fixed random draws for one particle, all inside `[0,1)`. -/
def demoRand : CycleRand 1 :=
  ⟨fun _ => 0, fun _ => 0, fun _ => 1/2, fun _ => 0, fun _ => 1/2,
   fun _ => 0, fun _ => 0, fun _ => 0, fun _ => 0⟩

/-- One-particle scene in the BUILD_SPIN phase: buildStart 0, buildDuration 2,
exitStart 0, exitDuration 1, phase clock starting at 0. -/
def demoState : SceneState 1 :=
  { phase := Phase.BUILD_SPIN
    tPhaseStart := 0
    shakePhase := 0
    planeOpacity := 0
    pointsOpacity := 1
    pointsVisible := true
    spinnerYaw := -π
    spinnerPitch := 0
    positions := fun _ => ⟨0, 0, 0⟩
    startPositions := fun _ => ⟨0, 0, 0⟩
    endPositions := fun _ => ⟨1, 0, 0⟩
    exitPositions := fun _ => ⟨2, 0, 0⟩
    t0 := fun _ => 0
    td := fun _ => 2
    startTimesExit := fun _ => 0
    durationsExit := fun _ => 1 }

/-! ### General helper lemmas -/

lemma clamp01_of_mem {v : ℝ} (h0 : 0 ≤ v) (h1 : v ≤ 1) : clamp01 v = v := by
  rw [clamp01, min_eq_right h1, max_eq_right h0]

lemma clamp01_of_one_le {v : ℝ} (h : 1 ≤ v) : clamp01 v = 1 := by
  rw [clamp01, min_eq_left h]
  exact max_eq_right (by norm_num)

lemma clamp01_nonneg (v : ℝ) : 0 ≤ clamp01 v := le_max_left _ _

lemma clamp01_le_one (v : ℝ) : clamp01 v ≤ 1 := max_le (by norm_num) (min_le_left _ _)

lemma two_rpow_neg_nat (m : ℕ) : (2 : ℝ) ^ (-(m : ℝ)) = ((2 : ℝ) ^ m)⁻¹ := by
  rw [← Real.rpow_natCast 2 m, ← Real.rpow_neg (by norm_num)]

lemma easeOutExpo_eval {t : ℝ} (m : ℕ) (ht : t < 1) (hm : 10 * t = m) :
    easeOutExpo t = 1 - ((2 : ℝ) ^ m)⁻¹ := by
  rw [easeOutExpo, if_neg (not_le.mpr ht)]
  have h : -10 * t = -(m : ℝ) := by rw [← hm]; ring
  rw [h, two_rpow_neg_nat]

lemma easeOutExpo_nonneg {t : ℝ} (h : 0 ≤ t) : 0 ≤ easeOutExpo t := by
  rw [easeOutExpo]
  split
  · norm_num
  · have : (2 : ℝ) ^ (-10 * t) ≤ 1 :=
      Real.rpow_le_one_of_one_le_of_nonpos (by norm_num) (by linarith)
    linarith

lemma easeOutExpo_le_one (t : ℝ) : easeOutExpo t ≤ 1 := by
  rw [easeOutExpo]
  split
  · norm_num
  · have : (0 : ℝ) < (2 : ℝ) ^ (-10 * t) := Real.rpow_pos_of_pos (by norm_num) _
    linarith

lemma smoothstep_nonneg (a b x : ℝ) : 0 ≤ smoothstep a b x := by
  rw [smoothstep]
  have h0 := clamp01_nonneg ((x - a) / (b - a))
  have h1 := clamp01_le_one ((x - a) / (b - a))
  nlinarith [mul_nonneg (mul_nonneg h0 h0)
    (show (0 : ℝ) ≤ 3 - 2 * clamp01 ((x - a) / (b - a)) by linarith)]

lemma smoothstep_le_one (a b x : ℝ) : smoothstep a b x ≤ 1 := by
  rw [smoothstep]
  have h0 := clamp01_nonneg ((x - a) / (b - a))
  have h1 := clamp01_le_one ((x - a) / (b - a))
  nlinarith [mul_nonneg (sq_nonneg (1 - clamp01 ((x - a) / (b - a))))
    (show (0 : ℝ) ≤ 1 + 2 * clamp01 ((x - a) / (b - a)) by linarith)]

lemma MAX_YAW_nonneg : 0 ≤ MAX_YAW := by
  rw [MAX_YAW, degToRad, maxYawDeg]
  have := Real.pi_pos
  positivity

lemma abs_sin_sub_sin_le (a b : ℝ) : |Real.sin a - Real.sin b| ≤ |a - b| := by
  rw [Real.sin_sub_sin]
  have h1 : |Real.sin ((a - b) / 2)| ≤ |(a - b) / 2| := Real.abs_sin_le_abs
  have h2 : |Real.cos ((a + b) / 2)| ≤ 1 := Real.abs_cos_le_one _
  have h3 : |2 * Real.sin ((a - b) / 2) * Real.cos ((a + b) / 2)|
      = 2 * |Real.sin ((a - b) / 2)| * |Real.cos ((a + b) / 2)| := by
    rw [abs_mul, abs_mul]
    norm_num
  rw [h3]
  have h4 : 2 * |Real.sin ((a - b) / 2)| * |Real.cos ((a + b) / 2)| ≤ 2 * |(a - b) / 2| * 1 := by
    apply mul_le_mul _ h2 (abs_nonneg _) (by positivity)
    have := abs_nonneg (Real.sin ((a - b) / 2))
    linarith
  calc 2 * |Real.sin ((a - b) / 2)| * |Real.cos ((a + b) / 2)| ≤ 2 * |(a - b) / 2| * 1 := h4
    _ = |a - b| := by
      rw [abs_div]
      norm_num
      ring

/-! ### Unfolding `tick` at a known phase -/

lemma tick_build {n : ℕ} (env : Env) (st : SceneState n) (now dt : ℝ) (r : CycleRand n)
    (h : st.phase = Phase.BUILD_SPIN) : tick env st now dt r = buildStep st now dt := by
  unfold tick
  rw [h]

lemma tick_exit {n : ℕ} (env : Env) (st : SceneState n) (now dt : ℝ) (r : CycleRand n)
    (h : st.phase = Phase.EXIT) : tick env st now dt r = exitStep st now := by
  unfold tick
  rw [h]

lemma tick_wait {n : ℕ} (env : Env) (st : SceneState n) (now dt : ℝ) (r : CycleRand n)
    (h : st.phase = Phase.WAIT) : tick env st now dt r = waitStep env st r now := by
  unfold tick
  rw [h]

/-! ### Evaluation of the fixture -/

lemma demo_bp_one : buildProgress (demoState.t0 0) (demoState.td 0) (1 - demoState.tPhaseStart)
    = 1/2 := by
  rw [buildProgress]
  show clamp01 ((1 - 0 - 0) / 2) = 1/2
  rw [show ((1 : ℝ) - 0 - 0) / 2 = 1/2 by norm_num]
  exact clamp01_of_mem (by norm_num) (by norm_num)

lemma demo_avg1 : avgBuild demoState 1 = 31/32 := by
  rw [avgBuild, Fin.sum_univ_one, buildEase, demo_bp_one,
    easeOutExpo_eval 5 (by norm_num) (by norm_num)]
  norm_num

lemma demo_avg2 : avgBuild demoState 2 = 1 := by
  have hbp : buildProgress (demoState.t0 0) (demoState.td 0) (2 - demoState.tPhaseStart) = 1 := by
    rw [buildProgress]
    show clamp01 ((2 - 0 - 0) / 2) = 1
    rw [show ((2 : ℝ) - 0 - 0) / 2 = 1 by norm_num]
    exact clamp01_of_one_le le_rfl
  rw [avgBuild, Fin.sum_univ_one, buildEase, hbp, easeOutExpo, if_pos le_rfl]
  norm_num

lemma smoothstep_evalA : smoothstep handoffStartProg handoffEndProg (31/32) = 25921/55296 := by
  rw [smoothstep, handoffStartProg, handoffEndProg,
    show ((31 : ℝ)/32 - 0.94) / (1.00 - 0.94) = 23/48 by norm_num,
    clamp01_of_mem (by norm_num) (by norm_num)]
  norm_num

lemma smoothstep_evalB : smoothstep handoffStartProg handoffEndProg (63/64) = 367993/442368 := by
  rw [smoothstep, handoffStartProg, handoffEndProg,
    show ((63 : ℝ)/64 - 0.94) / (1.00 - 0.94) = 71/96 by norm_num,
    clamp01_of_mem (by norm_num) (by norm_num)]
  norm_num

lemma smoothstep_eval_top : smoothstep handoffStartProg handoffEndProg 1 = 1 := by
  rw [smoothstep, handoffStartProg, handoffEndProg,
    show ((1 : ℝ) - 0.94) / (1.00 - 0.94) = 1 by norm_num,
    clamp01_of_one_le le_rfl]
  norm_num

lemma demo_s1 : blendS demoState 1 = 25921/55296 := by
  rw [blendS, demo_avg1, smoothstep_evalA]

/-! ### Claim theorems -/

/-- Claim C9: the ease functions fix their endpoints (easeOutExpo 0 = 0,
easeOutExpo 1 = 1, easeInCubic 0 = 0, easeInCubic 1 = 1), so the interpolated
position at eased progress 0 is exactly the spawn position and at eased
progress 1 exactly the target position. -/
theorem c9_ease_endpoints :
    easeOutExpo 0 = 0 ∧ easeOutExpo 1 = 1 ∧ easeInCubic 0 = 0 ∧ easeInCubic 1 = 1 ∧
    ∀ a b : Vec3, lerpV a b (easeOutExpo 0) = a ∧ lerpV a b (easeOutExpo 1) = b ∧
      lerpV a b (easeInCubic 0) = a ∧ lerpV a b (easeInCubic 1) = b := by
  have h0 : easeOutExpo 0 = 0 := by
    rw [easeOutExpo, if_neg (by norm_num), show (-10 : ℝ) * 0 = 0 by ring, Real.rpow_zero]
    norm_num
  have h1 : easeOutExpo 1 = 1 := by rw [easeOutExpo, if_pos le_rfl]
  have h2 : easeInCubic 0 = 0 := by rw [easeInCubic]; ring
  have h3 : easeInCubic 1 = 1 := by rw [easeInCubic]; ring
  refine ⟨h0, h1, h2, h3, fun a b => ⟨?_, ?_, ?_, ?_⟩⟩
  · rw [h0]; apply Vec3.ext <;> simp [lerpV, lerp]
  · rw [h1]; apply Vec3.ext <;> simp [lerpV, lerp]
  · rw [h2]; apply Vec3.ext <;> simp [lerpV, lerp]
  · rw [h3]; apply Vec3.ext <;> simp [lerpV, lerp]

/-- Claim C7: build progress is always clamped to [0,1], is strictly
increasing in time while it lies in (0,1) (for positive duration), and the
eased lerp therefore never leaves the segment between spawn and target: an
arbitrarily large time jump at most snaps the particle to its endpoint. -/
theorem c7_buildProgress_clamped (start dur : ℝ) (hdur : 0 < dur) :
    (∀ t, 0 ≤ buildProgress start dur t ∧ buildProgress start dur t ≤ 1) ∧
    (∀ t t', t < t' → 0 < buildProgress start dur t → buildProgress start dur t < 1 →
      buildProgress start dur t < buildProgress start dur t') ∧
    (∀ a b t, min a b ≤ lerp a b (easeOutExpo (buildProgress start dur t)) ∧
      lerp a b (easeOutExpo (buildProgress start dur t)) ≤ max a b) := by
  refine ⟨fun t => ⟨clamp01_nonneg _, clamp01_le_one _⟩, ?_, ?_⟩
  · intro t t' htt h0 h1
    set v := (t - start) / dur with hv
    rcases le_or_lt 1 v with hge | hlt
    · rw [buildProgress, ← hv, clamp01_of_one_le hge] at h1
      exact absurd h1 (lt_irrefl 1)
    rcases le_or_lt v 0 with hle | hpos
    · have hz : buildProgress start dur t = 0 := by
        rw [buildProgress, ← hv, clamp01, min_eq_right (le_trans hle zero_le_one),
          max_eq_left hle]
      rw [hz] at h0
      exact absurd h0 (lt_irrefl 0)
    have hbt : buildProgress start dur t = v := by
      rw [buildProgress, ← hv]
      exact clamp01_of_mem hpos.le hlt.le
    have hlt' : v < (t' - start) / dur := by
      apply (div_lt_div_iff_of_pos_right hdur).mpr
      linarith
    rcases le_or_lt 1 ((t' - start) / dur) with h2 | h2
    · have hbt' : buildProgress start dur t' = 1 := by
        rw [buildProgress]
        exact clamp01_of_one_le h2
      rw [hbt, hbt']
      exact hlt
    · have hbt' : buildProgress start dur t' = (t' - start) / dur := by
        rw [buildProgress]
        exact clamp01_of_mem (by linarith) h2.le
      rw [hbt, hbt']
      exact hlt'
  · intro a b t
    have h0 : 0 ≤ easeOutExpo (buildProgress start dur t) :=
      easeOutExpo_nonneg (clamp01_nonneg _)
    have h1 : easeOutExpo (buildProgress start dur t) ≤ 1 :=
      easeOutExpo_le_one _
    constructor
    · rcases le_total a b with hab | hab
      · rw [min_eq_left hab, lerp]; nlinarith
      · rw [min_eq_right hab, lerp]; nlinarith
    · rcases le_total a b with hab | hab
      · rw [max_eq_right hab, lerp]; nlinarith
      · rw [max_eq_left hab, lerp]; nlinarith

/-- Witness for C7 at start 0, duration 2, times 1 and 3/2, segment [0,4]. -/
theorem c7_witness :
    (0 : ℝ) < 2 ∧ (0 ≤ buildProgress 0 2 1 ∧ buildProgress 0 2 1 ≤ 1) ∧
    buildProgress 0 2 1 < buildProgress 0 2 (3/2) ∧
    (min 0 4 ≤ lerp 0 4 (easeOutExpo (buildProgress 0 2 1)) ∧
      lerp 0 4 (easeOutExpo (buildProgress 0 2 1)) ≤ max 0 4) := by
  have H := c7_buildProgress_clamped 0 2 (by norm_num)
  have hbp : buildProgress 0 2 1 = 1/2 := by
    rw [buildProgress, show ((1 : ℝ) - 0) / 2 = 1/2 by norm_num]
    exact clamp01_of_mem (by norm_num) (by norm_num)
  exact ⟨by norm_num, H.1 1,
    H.2.1 1 (3/2) (by norm_num) (by rw [hbp]; norm_num) (by rw [hbp]; norm_num),
    H.2.2 0 4 1⟩

/-- Claim C8: during ASSEMBLE, on every frame with avgBuildProgress above the
trigger 0.92 the overlay opacity is bumped by the fixed per-frame step 0.03
clamped at 1, otherwise left unchanged; the step does not depend on dt. -/
theorem c8_overlay_fade {n : ℕ} (env : Env) (st : SceneState n) (now dt : ℝ)
    (r : CycleRand n) (h : st.phase = Phase.BUILD_SPIN) :
    (planeFadeAt < avgBuild st now →
      (tick env st now dt r).planeOpacity = min 1 (st.planeOpacity + 0.03) ∧
      (tick env st now dt r).planeOpacity ≤ 1) ∧
    (¬ planeFadeAt < avgBuild st now →
      (tick env st now dt r).planeOpacity = st.planeOpacity) ∧
    (∀ dt1 dt2, (tick env st now dt1 r).planeOpacity = (tick env st now dt2 r).planeOpacity) := by
  have hb : ∀ dt' : ℝ, tick env st now dt' r = buildStep st now dt' :=
    fun dt' => tick_build env st now dt' r h
  have hproj : ∀ dt' : ℝ, (buildStep st now dt').planeOpacity
      = if planeFadeAt < avgBuild st now then min 1 (st.planeOpacity + 0.03)
        else st.planeOpacity := fun _ => rfl
  refine ⟨?_, ?_, ?_⟩
  · intro hgt
    rw [hb dt, hproj dt, if_pos hgt]
    exact ⟨rfl, min_le_left _ _⟩
  · intro hle
    rw [hb dt, hproj dt, if_neg hle]
  · intro dt1 dt2
    rw [hb dt1, hb dt2, hproj dt1, hproj dt2]

/-- Witness for C8: the fixture at time 1 has avgBuildProgress 31/32 > 0.92,
so the opacity steps by 0.03, independently of dt. -/
theorem c8_witness :
    (tick demoEnv demoState 1 (1/5) demoRand).planeOpacity
      = min 1 (demoState.planeOpacity + 0.03) ∧
    (tick demoEnv demoState 1 (1/5) demoRand).planeOpacity
      = (tick demoEnv demoState 1 (7/5) demoRand).planeOpacity := by
  have H := c8_overlay_fade demoEnv demoState 1 (1/5) demoRand rfl
  have havg : planeFadeAt < avgBuild demoState 1 := by
    rw [demo_avg1, planeFadeAt]
    norm_num
  exact ⟨(H.1 havg).1, H.2.2 (1/5) (7/5)⟩

/-- Claim C10: the exit-target computation is total at the degenerate center
point: a zero planar length is replaced by 1, so the divisor is never zero and
a particle whose target is the image center gets the finite exit target
(0, 0, jitter). -/
theorem c10_exitTarget_center (p : Vec3) (magU exitZU : ℝ) (hx : p.x = 0) (hy : p.y = 0) :
    (∀ q : Vec3,
      (if Real.sqrt (q.x ^ 2 + q.y ^ 2) = 0 then (1 : ℝ) else Real.sqrt (q.x ^ 2 + q.y ^ 2))
        ≠ 0) ∧
    exitTargetOf p magU exitZU = ⟨0, 0, (exitZU * 2 - 1) * 1.2⟩ := by
  constructor
  · intro q
    by_cases hq : Real.sqrt (q.x ^ 2 + q.y ^ 2) = 0
    · rw [if_pos hq]
      norm_num
    · rw [if_neg hq]
      exact hq
  · rw [exitTargetOf, hx, hy,
      show ((0 : ℝ) ^ 2 + (0 : ℝ) ^ 2) = 0 by norm_num, Real.sqrt_zero, if_pos rfl]
    apply Vec3.ext <;> norm_num

/-- Witness for C10 at the concrete center target (0, 0, 5). -/
theorem c10_witness :
    exitTargetOf ⟨0, 0, 5⟩ 0 (1/2) = ⟨0, 0, ((1 : ℝ)/2 * 2 - 1) * 1.2⟩ :=
  (c10_exitTarget_center ⟨0, 0, 5⟩ 0 (1/2) rfl rfl).2

/-- Claim C1: during ASSEMBLE the rendered yaw is the smoothstep blend
(1 - s) * sweepYaw + s * (MAX_YAW * sin phaseAccumulator), with
sweepYaw = lerp(-pi, 0, avgBuildProgress), s = smoothstep(0.94, 1, avg), and
the phase accumulator advancing by speed * dt exactly on frames with s > 0. -/
theorem c1_handoff_yaw {n : ℕ} (env : Env) (st : SceneState n) (now dt : ℝ)
    (r : CycleRand n) (h : st.phase = Phase.BUILD_SPIN) :
    (tick env st now dt r).spinnerYaw
      = (1 - blendS st now) * lerp (-π) 0 (avgBuild st now)
        + blendS st now * (MAX_YAW * Real.sin ((tick env st now dt r).shakePhase)) ∧
    (0 < blendS st now →
      (tick env st now dt r).shakePhase = st.shakePhase + shakeSpeed * dt) ∧
    (blendS st now ≤ 0 → (tick env st now dt r).shakePhase = st.shakePhase) := by
  rw [tick_build env st now dt r h]
  have hshake : (buildStep st now dt).shakePhase
      = st.shakePhase + shakeSpeed * dt * (if 0 < blendS st now then 1 else 0) := rfl
  have hyaw : (buildStep st now dt).spinnerYaw
      = yawOf (avgBuild st now) ((buildStep st now dt).shakePhase) := rfl
  refine ⟨?_, ?_, ?_⟩
  · rw [hyaw, yawOf, blendS]
    ring
  · intro hpos
    rw [hshake, if_pos hpos]
    ring
  · intro hle
    rw [hshake, if_neg (not_lt.mpr hle)]
    ring

/-- Witness for C1: the fixture at time 1 with dt = 1/5 is inside the blend
window (s = 25921/55296 > 0), so the accumulator advances by speed * dt. -/
theorem c1_witness :
    (tick demoEnv demoState 1 (1/5) demoRand).spinnerYaw
      = (1 - blendS demoState 1) * lerp (-π) 0 (avgBuild demoState 1)
        + blendS demoState 1
          * (MAX_YAW * Real.sin ((tick demoEnv demoState 1 (1/5) demoRand).shakePhase)) ∧
    (tick demoEnv demoState 1 (1/5) demoRand).shakePhase
      = demoState.shakePhase + shakeSpeed * (1/5) := by
  have H := c1_handoff_yaw demoEnv demoState 1 (1/5) demoRand rfl
  exact ⟨H.1, H.2.1 (by rw [demo_s1]; norm_num)⟩

/-- Claim C4: the machine leaves ASSEMBLE for IDLE_OSCILLATE exactly when both
the blend factor and the overlay opacity of the frame reach 0.999. -/
theorem c4_assemble_to_idle {n : ℕ} (env : Env) (st : SceneState n) (now dt : ℝ)
    (r : CycleRand n) (h : st.phase = Phase.BUILD_SPIN) :
    ((tick env st now dt r).phase = Phase.SHAKE ↔
      0.999 ≤ blendS st now ∧ 0.999 ≤ (tick env st now dt r).planeOpacity) ∧
    (¬(0.999 ≤ blendS st now ∧ 0.999 ≤ (tick env st now dt r).planeOpacity) →
      (tick env st now dt r).phase = Phase.BUILD_SPIN) := by
  rw [tick_build env st now dt r h]
  have hphase : (buildStep st now dt).phase
      = if 0.999 ≤ blendS st now ∧ 0.999 ≤ (buildStep st now dt).planeOpacity
        then Phase.SHAKE else st.phase := rfl
  constructor
  · rw [hphase]
    by_cases hc : 0.999 ≤ blendS st now ∧ 0.999 ≤ (buildStep st now dt).planeOpacity
    · rw [if_pos hc]
      exact iff_of_true rfl hc
    · rw [if_neg hc, h]
      exact iff_of_false (by decide) hc
  · intro hc
    rw [hphase, if_neg hc, h]

/-- Witness for C4: the fixture at time 1 has blend factor 25921/55296 below
0.999, so the frame stays in BUILD_SPIN. -/
theorem c4_witness : (tick demoEnv demoState 1 (1/5) demoRand).phase = Phase.BUILD_SPIN := by
  have H := c4_assemble_to_idle demoEnv demoState 1 (1/5) demoRand rfl
  exact H.2 (fun hc => absurd hc.1 (by rw [demo_s1]; norm_num))

/-- Claim C3: during ASSEMBLE every particle sits at the lerp from its spawn
position to its target position by easeOutExpo of the clamped progress; with
buildStart 0 and buildDuration 2 for all particles, at phase time 2 every
particle is exactly at its target. -/
theorem c3_assemble_positions {n : ℕ} (env : Env) (st : SceneState n) (now dt : ℝ)
    (r : CycleRand n) (h : st.phase = Phase.BUILD_SPIN) :
    (∀ i, (tick env st now dt r).positions i
        = lerpV (st.startPositions i) (st.endPositions i)
            (easeOutExpo (buildProgress (st.t0 i) (st.td i) (now - st.tPhaseStart)))) ∧
    ((∀ i, st.t0 i = 0) → (∀ i, st.td i = 2) → now - st.tPhaseStart = 2 →
      ∀ i, (tick env st now dt r).positions i = st.endPositions i) := by
  rw [tick_build env st now dt r h]
  have hpos : ∀ i, (buildStep st now dt).positions i
      = lerpV (st.startPositions i) (st.endPositions i) (buildEase st now i) := fun _ => rfl
  constructor
  · intro i
    rw [hpos i, buildEase]
  · intro ht0 htd hnow i
    rw [hpos i, buildEase, ht0 i, htd i, hnow, buildProgress,
      show ((2 : ℝ) - 0) / 2 = 1 by norm_num, clamp01_of_one_le le_rfl,
      easeOutExpo, if_pos le_rfl]
    apply Vec3.ext <;> simp [lerpV, lerp]

/-- Witness for C3: the fixture particle reaches its target at phase time 2. -/
theorem c3_witness :
    (tick demoEnv demoState 2 (1/5) demoRand).positions 0 = demoState.endPositions 0 := by
  have H := c3_assemble_positions demoEnv demoState 2 (1/5) demoRand rfl
  exact H.2 (fun _ => rfl) (fun _ => rfl) (by show (2 : ℝ) - 0 = 2; norm_num) 0

/-! ### The DISPERSE completion count -/

lemma exitDone_le {n : ℕ} (st : SceneState n) (now : ℝ) : exitDone st now ≤ n := by
  rw [exitDone]
  have h := Finset.card_filter_le (Finset.univ : Finset (Fin n))
    (fun i => 1 ≤ exitProg st now i)
  rwa [Finset.card_univ, Fintype.card_fin] at h

lemma exitDone_full_iff {n : ℕ} (st : SceneState n) (now : ℝ) :
    n ≤ exitDone st now ↔ ∀ i, 1 ≤ exitProg st now i := by
  constructor
  · intro hle i
    have hcard : (Finset.univ : Finset (Fin n)).card
        ≤ (Finset.univ.filter fun j => 1 ≤ exitProg st now j).card := by
      rw [Finset.card_univ, Fintype.card_fin]
      exact hle
    have heq : (Finset.univ.filter fun j => 1 ≤ exitProg st now j) = Finset.univ :=
      Finset.eq_of_subset_of_card_le (Finset.filter_subset _ _) hcard
    have hmem : i ∈ (Finset.univ.filter fun j => 1 ≤ exitProg st now j) := by
      rw [heq]
      exact Finset.mem_univ i
    exact (Finset.mem_filter.mp hmem).2
  · intro hall
    rw [exitDone, Finset.filter_true_of_mem (fun i _ => hall i), Finset.card_univ,
      Fintype.card_fin]

/-- Claim C5: during DISPERSE every particle sits at the lerp from target to
exit target by easeInCubic of the clamped exit progress, and the machine
moves to PAUSE exactly when every particle's progress has reached 1; with all
exitStart 0 and exitDuration 1, at phase time 1 the done count is N and the
transition fires. -/
theorem c5_disperse {n : ℕ} (env : Env) (st : SceneState n) (now dt : ℝ)
    (r : CycleRand n) (h : st.phase = Phase.EXIT) :
    (∀ i, (tick env st now dt r).positions i
        = lerpV (st.endPositions i) (st.exitPositions i) (easeInCubic (exitProg st now i))) ∧
    ((tick env st now dt r).phase = Phase.WAIT ↔ ∀ i, 1 ≤ exitProg st now i) ∧
    ((∀ i, st.startTimesExit i = 0) → (∀ i, st.durationsExit i = 1) →
      now - st.tPhaseStart = 1 →
      exitDone st now = n ∧ (tick env st now dt r).phase = Phase.WAIT) := by
  rw [tick_exit env st now dt r h]
  have hpos : ∀ i, (exitStep st now).positions i
      = lerpV (st.endPositions i) (st.exitPositions i) (easeInCubic (exitProg st now i)) :=
    fun _ => rfl
  have hphase : (exitStep st now).phase
      = if n ≤ exitDone st now then Phase.WAIT else st.phase := rfl
  have hiff : (exitStep st now).phase = Phase.WAIT ↔ ∀ i, 1 ≤ exitProg st now i := by
    rw [hphase]
    by_cases hc : n ≤ exitDone st now
    · rw [if_pos hc]
      exact iff_of_true rfl ((exitDone_full_iff st now).mp hc)
    · rw [if_neg hc, h]
      exact iff_of_false (by decide)
        (fun hall => hc ((exitDone_full_iff st now).mpr hall))
  refine ⟨hpos, hiff, ?_⟩
  intro h0 h1 hnow
  have hall : ∀ i, 1 ≤ exitProg st now i := by
    intro i
    rw [exitProg, h0 i, h1 i, sub_zero, hnow, div_one, clamp01_of_one_le le_rfl]
  exact ⟨le_antisymm (exitDone_le st now) ((exitDone_full_iff st now).mpr hall),
    hiff.mpr hall⟩

/-- One-particle scene entering DISPERSE, exitStart 0 and exitDuration 1. -/
def demoExitState : SceneState 1 := { demoState with phase := Phase.EXIT }

/-- Witness for C5: the fixture in DISPERSE at phase time 1 has done count 1
and transitions to WAIT. -/
theorem c5_witness :
    exitDone demoExitState 1 = 1 ∧
    (tick demoEnv demoExitState 1 (1/5) demoRand).phase = Phase.WAIT ∧
    (tick demoEnv demoExitState 1 (1/5) demoRand).positions 0
      = lerpV (demoExitState.endPositions 0) (demoExitState.exitPositions 0)
          (easeInCubic (exitProg demoExitState 1 0)) := by
  have H := c5_disperse demoEnv demoExitState 1 (1/5) demoRand rfl
  have H2 := H.2.2 (fun _ => rfl) (fun _ => rfl) (by show (1 : ℝ) - 0 = 1; norm_num)
  exact ⟨H2.1, H2.2, H.1 0⟩

/-! ### The spawn perimeter -/

lemma randBetween_abs_le {c u : ℝ} (hc : 0 ≤ c) (h0 : 0 ≤ u) (h1 : u ≤ 1) :
    |randBetween (-c) c u| ≤ c := by
  rw [randBetween, abs_le]
  constructor <;> nlinarith

lemma spawnOf_perimeter (hw hh : ℝ) (hw0 : 0 ≤ hw) (hh0 : 0 ≤ hh) (eU pU zU : ℝ)
    (hp0 : 0 ≤ pU) (hp1 : pU ≤ 1) :
    (|(spawnOf hw hh eU pU zU).x| = hw ∧ |(spawnOf hw hh eU pU zU).y| ≤ hh) ∨
    (|(spawnOf hw hh eU pU zU).y| = hh ∧ |(spawnOf hw hh eU pU zU).x| ≤ hw) := by
  rw [spawnOf]
  by_cases h0 : (⌊eU * 4⌋ : ℤ) = 0
  · rw [if_pos h0]
    left
    refine ⟨?_, ?_⟩
    · show |-hw| = hw
      rw [abs_neg, abs_of_nonneg hw0]
    · exact randBetween_abs_le hh0 hp0 hp1
  · rw [if_neg h0]
    by_cases h1 : (⌊eU * 4⌋ : ℤ) = 1
    · rw [if_pos h1]
      left
      exact ⟨abs_of_nonneg hw0, randBetween_abs_le hh0 hp0 hp1⟩
    · rw [if_neg h1]
      by_cases h2 : (⌊eU * 4⌋ : ℤ) = 2
      · rw [if_pos h2]
        right
        exact ⟨abs_of_nonneg hh0, randBetween_abs_le hw0 hp0 hp1⟩
      · rw [if_neg h2]
        right
        refine ⟨?_, randBetween_abs_le hw0 hp0 hp1⟩
        show |-hh| = hh
        rw [abs_neg, abs_of_nonneg hh0]

/-- Claim C6: in PAUSE, once the 1-second rebuild delay has elapsed, the frame
is exactly one invocation of the cycle generator, re-entering BUILD_SPIN; every
fresh spawn position lies on the perimeter of the padding-inflated rectangle
(hence outside the image's bounding rectangle), and the edge index floor(u*4)
selects each of the four edges exactly on a quarter of the unit draw range. -/
theorem c6_pause_to_assemble {n : ℕ} (env : Env) (st : SceneState n) (now dt : ℝ)
    (r : CycleRand n) (h : st.phase = Phase.WAIT)
    (hW : 0 ≤ env.boundsW * env.scale) (hH : 0 ≤ env.boundsH * env.scale)
    (hu : ∀ i, 0 ≤ r.posU i ∧ r.posU i ≤ 1)
    (ht : rebuildDelay ≤ now - st.tPhaseStart) :
    tick env st now dt r = prepareBuildCycle env st.endPositions r now ∧
    (tick env st now dt r).phase = Phase.BUILD_SPIN ∧
    (∀ i, (|((prepareBuildCycle env st.endPositions r now).startPositions i).x| = halfW env ∧
           |((prepareBuildCycle env st.endPositions r now).startPositions i).y| ≤ halfH env) ∨
          (|((prepareBuildCycle env st.endPositions r now).startPositions i).y| = halfH env ∧
           |((prepareBuildCycle env st.endPositions r now).startPositions i).x| ≤ halfW env)) ∧
    (∀ i, ¬(|((prepareBuildCycle env st.endPositions r now).startPositions i).x|
              ≤ env.boundsW * env.scale / 2 ∧
            |((prepareBuildCycle env st.endPositions r now).startPositions i).y|
              ≤ env.boundsH * env.scale / 2)) ∧
    (∀ i (k : ℤ), ⌊r.edgeU i * 4⌋ = k ↔
      (k : ℝ) / 4 ≤ r.edgeU i ∧ r.edgeU i < ((k : ℝ) + 1) / 4) := by
  have htick : tick env st now dt r = prepareBuildCycle env st.endPositions r now := by
    rw [tick_wait env st now dt r h, waitStep, if_pos ht]
  have hsp : ∀ i, (prepareBuildCycle env st.endPositions r now).startPositions i
      = spawnOf (halfW env) (halfH env) (r.edgeU i) (r.posU i) (r.zU i) := fun _ => rfl
  have hw0 : 0 ≤ halfW env := by
    rw [halfW, spawnPad, logoDiameter]
    nlinarith
  have hh0 : 0 ≤ halfH env := by
    rw [halfH, spawnPad, logoDiameter]
    nlinarith
  have hper : ∀ i,
      (|((prepareBuildCycle env st.endPositions r now).startPositions i).x| = halfW env ∧
       |((prepareBuildCycle env st.endPositions r now).startPositions i).y| ≤ halfH env) ∨
      (|((prepareBuildCycle env st.endPositions r now).startPositions i).y| = halfH env ∧
       |((prepareBuildCycle env st.endPositions r now).startPositions i).x| ≤ halfW env) := by
    intro i
    rw [hsp i]
    exact spawnOf_perimeter _ _ hw0 hh0 _ _ _ (hu i).1 (hu i).2
  refine ⟨htick, by rw [htick]; rfl, hper, ?_, ?_⟩
  · rintro i ⟨hx, hy⟩
    rcases hper i with ⟨hx', _⟩ | ⟨hy', _⟩
    · rw [halfW, spawnPad, logoDiameter] at hx'
      nlinarith
    · rw [halfH, spawnPad, logoDiameter] at hy'
      nlinarith
  · intro i k
    rw [Int.floor_eq_iff]
    constructor
    · rintro ⟨hl, hr⟩
      exact ⟨(div_le_iff₀ (by norm_num : (0 : ℝ) < 4)).mpr hl,
        (lt_div_iff₀ (by norm_num : (0 : ℝ) < 4)).mpr hr⟩
    · rintro ⟨hl, hr⟩
      exact ⟨(div_le_iff₀ (by norm_num : (0 : ℝ) < 4)).mp hl,
        (lt_div_iff₀ (by norm_num : (0 : ℝ) < 4)).mp hr⟩

/-- One-particle scene in PAUSE with phase clock at 0. -/
def demoWaitState : SceneState 1 := { demoState with phase := Phase.WAIT }

/-- Witness for C6: the fixture in PAUSE at time 1 rebuilds and re-enters
BUILD_SPIN. -/
theorem c6_witness :
    tick demoEnv demoWaitState 1 (1/5) demoRand
      = prepareBuildCycle demoEnv demoWaitState.endPositions demoRand 1 ∧
    (tick demoEnv demoWaitState 1 (1/5) demoRand).phase = Phase.BUILD_SPIN := by
  have H := c6_pause_to_assemble demoEnv demoWaitState 1 (1/5) demoRand rfl
    (by show (0 : ℝ) ≤ 1 * 1; norm_num)
    (by show (0 : ℝ) ≤ 1 * 1; norm_num)
    (fun i => ⟨le_rfl, by show (0 : ℝ) ≤ 1; norm_num⟩)
    (by show rebuildDelay ≤ 1 - (0 : ℝ); rw [rebuildDelay]; norm_num)
  exact ⟨H.1, H.2.1⟩

/-- Counterexample to Claim C2 as stated: two adjacent BUILD_SPIN frames of
the fixture (times 1 and 6/5, dt = 1/5) both have blend factor strictly
inside (0,1), yet the yaw moves by more than MAX_YAW * speed * dt, because
the blend weight and the sweep also move with avgBuildProgress. -/
theorem c2_handoff_rate_counterexample :
    0 < blendS demoState 1 ∧ blendS demoState 1 < 1 ∧
    0 < blendS (tick demoEnv demoState 1 (1/5) demoRand) (6/5) ∧
    blendS (tick demoEnv demoState 1 (1/5) demoRand) (6/5) < 1 ∧
    MAX_YAW * shakeSpeed * (1/5)
      < (tick demoEnv (tick demoEnv demoState 1 (1/5) demoRand) (6/5) (1/5) demoRand).spinnerYaw
        - (tick demoEnv demoState 1 (1/5) demoRand).spinnerYaw := by
  have hA := tick_build demoEnv demoState 1 (1/5) demoRand rfl
  have hposA : 0 < blendS demoState 1 := by rw [demo_s1]; norm_num
  have hltA : blendS demoState 1 < 1 := by rw [demo_s1]; norm_num
  have hnc : ¬(0.999 ≤ blendS demoState 1 ∧
      0.999 ≤ (buildStep demoState 1 (1/5)).planeOpacity) :=
    fun hc => absurd hc.1 (by rw [demo_s1]; norm_num)
  have hA_t : (buildStep demoState 1 (1/5)).tPhaseStart = 0 := by
    have hproj : (buildStep demoState 1 (1/5)).tPhaseStart
        = if 0.999 ≤ blendS demoState 1 ∧ 0.999 ≤ (buildStep demoState 1 (1/5)).planeOpacity
          then (1 : ℝ) else demoState.tPhaseStart := rfl
    rw [hproj, if_neg hnc]
    rfl
  have hA_phase : (buildStep demoState 1 (1/5)).phase = Phase.BUILD_SPIN := by
    have hproj : (buildStep demoState 1 (1/5)).phase
        = if 0.999 ≤ blendS demoState 1 ∧ 0.999 ≤ (buildStep demoState 1 (1/5)).planeOpacity
          then Phase.SHAKE else demoState.phase := rfl
    rw [hproj, if_neg hnc]
    rfl
  have hA_shake : (buildStep demoState 1 (1/5)).shakePhase = 1/10 := by
    have hproj : (buildStep demoState 1 (1/5)).shakePhase
        = demoState.shakePhase
            + shakeSpeed * (1/5) * (if 0 < blendS demoState 1 then 1 else 0) := rfl
    rw [hproj, if_pos hposA]
    show (0 : ℝ) + shakeSpeed * (1/5) * 1 = 1/10
    rw [shakeSpeed]
    norm_num
  have hA_yaw : (buildStep demoState 1 (1/5)).spinnerYaw = yawOf (31/32) (1/10) := by
    have hproj : (buildStep demoState 1 (1/5)).spinnerYaw
        = yawOf (avgBuild demoState 1) ((buildStep demoState 1 (1/5)).shakePhase) := rfl
    rw [hproj, demo_avg1, hA_shake]
  have hbpB : buildProgress ((buildStep demoState 1 (1/5)).t0 0)
      ((buildStep demoState 1 (1/5)).td 0)
      (6/5 - (buildStep demoState 1 (1/5)).tPhaseStart) = 3/5 := by
    rw [hA_t]
    show buildProgress 0 2 (6/5 - 0) = 3/5
    rw [buildProgress, show ((6 : ℝ)/5 - 0 - 0) / 2 = 3/5 by norm_num]
    exact clamp01_of_mem (by norm_num) (by norm_num)
  have havgB : avgBuild (buildStep demoState 1 (1/5)) (6/5) = 63/64 := by
    rw [avgBuild, Fin.sum_univ_one, buildEase, hbpB,
      easeOutExpo_eval 6 (by norm_num) (by norm_num)]
    norm_num
  have hsB : blendS (buildStep demoState 1 (1/5)) (6/5) = 367993/442368 := by
    rw [blendS, havgB, smoothstep_evalB]
  have hposB : 0 < blendS (buildStep demoState 1 (1/5)) (6/5) := by rw [hsB]; norm_num
  have hltB : blendS (buildStep demoState 1 (1/5)) (6/5) < 1 := by rw [hsB]; norm_num
  have hB := tick_build demoEnv (buildStep demoState 1 (1/5)) (6/5) (1/5) demoRand hA_phase
  have hB_shake : (buildStep (buildStep demoState 1 (1/5)) (6/5) (1/5)).shakePhase = 1/5 := by
    have hproj : (buildStep (buildStep demoState 1 (1/5)) (6/5) (1/5)).shakePhase
        = (buildStep demoState 1 (1/5)).shakePhase + shakeSpeed * (1/5)
            * (if 0 < blendS (buildStep demoState 1 (1/5)) (6/5) then 1 else 0) := rfl
    rw [hproj, if_pos hposB, hA_shake, shakeSpeed]
    norm_num
  have hB_yaw : (buildStep (buildStep demoState 1 (1/5)) (6/5) (1/5)).spinnerYaw
      = yawOf (63/64) (1/5) := by
    have hproj : (buildStep (buildStep demoState 1 (1/5)) (6/5) (1/5)).spinnerYaw
        = yawOf (avgBuild (buildStep demoState 1 (1/5)) (6/5))
            ((buildStep (buildStep demoState 1 (1/5)) (6/5) (1/5)).shakePhase) := rfl
    rw [hproj, havgB, hB_shake]
  refine ⟨hposA, hltA, ?_, ?_, ?_⟩
  · rw [hA]
    exact hposB
  · rw [hA]
    exact hltB
  · rw [hA, hB, hA_yaw, hB_yaw, yawOf, yawOf, smoothstep_evalA, smoothstep_evalB,
      MAX_YAW, degToRad, maxYawDeg, shakeSpeed, lerp, lerp]
    have hπ := Real.pi_pos
    have hs5 : (99 : ℝ)/500 < Real.sin (1/5) := by
      have h := Real.sin_gt_sub_cube (by norm_num : (0 : ℝ) < 1/5)
        (by norm_num : (1 : ℝ)/5 ≤ 1)
      have he : (1 : ℝ)/5 - (1/5) ^ 3 / 4 = 99/500 := by norm_num
      linarith
    have hs10 : Real.sin (1/10) < 1/10 := Real.sin_lt (by norm_num)
    have h1 : π * (99/500) < π * Real.sin (1/5) := mul_lt_mul_of_pos_left hs5 hπ
    have h2 : π * Real.sin (1/10) < π * (1/10) := mul_lt_mul_of_pos_left hs10 hπ
    nlinarith [h1, h2, hπ]

/-- Claim C2 (amended): the blended yaw is a jointly continuous function of
the pair (avgBuildProgress, phase accumulator) — so crossing s = 0 or s = 1
introduces no jump — and with avgBuildProgress held fixed the per-frame yaw
change is bounded by MAX_YAW times the accumulator advance (speed * dt); the
bound of the original claim fails only because avgBuildProgress itself moves
between frames. -/
theorem c2_yaw_continuous_amended :
    Continuous (fun p : ℝ × ℝ => yawOf p.1 p.2) ∧
    ∀ avg φ δ, |yawOf avg (φ + δ) - yawOf avg φ| ≤ MAX_YAW * |δ| := by
  constructor
  · have h1 : Continuous fun x : ℝ =>
        (x - handoffStartProg) / (handoffEndProg - handoffStartProg) :=
      (continuous_id.sub continuous_const).div_const _
    have hc : Continuous fun x : ℝ =>
        clamp01 ((x - handoffStartProg) / (handoffEndProg - handoffStartProg)) := by
      show Continuous fun x : ℝ =>
        max 0 (min 1 ((x - handoffStartProg) / (handoffEndProg - handoffStartProg)))
      exact continuous_const.max (continuous_const.min h1)
    have hcs : Continuous fun x : ℝ => smoothstep handoffStartProg handoffEndProg x := by
      show Continuous fun x : ℝ =>
        clamp01 ((x - handoffStartProg) / (handoffEndProg - handoffStartProg))
          * clamp01 ((x - handoffStartProg) / (handoffEndProg - handoffStartProg))
          * (3 - 2 * clamp01 ((x - handoffStartProg) / (handoffEndProg - handoffStartProg)))
      exact (hc.mul hc).mul (continuous_const.sub (continuous_const.mul hc))
    have hs : Continuous fun p : ℝ × ℝ => smoothstep handoffStartProg handoffEndProg p.1 :=
      hcs.comp continuous_fst
    have hl : Continuous fun p : ℝ × ℝ => lerp (-π) 0 p.1 := by
      show Continuous fun p : ℝ × ℝ => (1 - p.1) * (-π) + p.1 * 0
      exact ((continuous_const.sub continuous_fst).mul continuous_const).add
        (continuous_fst.mul continuous_const)
    have hsin : Continuous fun p : ℝ × ℝ => Real.sin p.2 :=
      Real.continuous_sin.comp continuous_snd
    show Continuous fun p : ℝ × ℝ =>
      (1 - smoothstep handoffStartProg handoffEndProg p.1) * lerp (-π) 0 p.1
        + MAX_YAW * Real.sin p.2 * smoothstep handoffStartProg handoffEndProg p.1
    exact ((continuous_const.sub hs).mul hl).add ((continuous_const.mul hsin).mul hs)
  · intro avg φ δ
    have hd : yawOf avg (φ + δ) - yawOf avg φ
        = MAX_YAW * smoothstep handoffStartProg handoffEndProg avg
            * (Real.sin (φ + δ) - Real.sin φ) := by
      rw [yawOf, yawOf]
      ring
    rw [hd, abs_mul, abs_mul]
    have hMY := MAX_YAW_nonneg
    have hs0 := smoothstep_nonneg handoffStartProg handoffEndProg avg
    have hs1 := smoothstep_le_one handoffStartProg handoffEndProg avg
    rw [abs_of_nonneg hMY, abs_of_nonneg hs0]
    have hsin : |Real.sin (φ + δ) - Real.sin φ| ≤ |δ| := by
      have h := abs_sin_sub_sin_le (φ + δ) φ
      rwa [add_sub_cancel_left] at h
    calc MAX_YAW * smoothstep handoffStartProg handoffEndProg avg
          * |Real.sin (φ + δ) - Real.sin φ|
        ≤ MAX_YAW * 1 * |δ| :=
          mul_le_mul (mul_le_mul_of_nonneg_left hs1 hMY) hsin (abs_nonneg _)
            (mul_nonneg hMY zero_le_one)
      _ = MAX_YAW * |δ| := by ring

end

end LogoScene
